/-
Verification of the stdpopsim `homo_sapiens` module: a declarative data
catalog defining the human genome's chromosome table, a registered genetic
map, and two demographic models (Gutenkunst et al. three-population
Out-of-Africa, and Tennessen et al. European).

The embedding follows the Python source closely:
  * the chromosome table is an embedded string parsed by splitting into
    lines and whitespace-separated fields, as in the module-level loop;
  * rates written as decimal literals in the source are embedded as exact
    rationals (for the chromosome table) or reals (for the models);
  * the demographic models are pure constructors producing population
    configurations, a migration matrix, and demographic events, with
    `math.exp` embedded as `Real.exp`.
-/
import Mathlib

namespace Stdpopsim

/-! ## Genetic maps

The `genetic_maps` framework module (base class and registry) is not part
of this repository's sources; only its use from `homo_sapiens.py` is.
It is modelled from the spec below. -/

/-- Modelled from the spec: a genetic map descriptor has a URL and a
file-name pattern, and is registered by name into a process-wide catalog
(the `name` of a map is the identifier it is registered under). -/
structure GeneticMap where
  name : String
  url : String
  file_pattern : String
deriving DecidableEq, Repr

/-- The Phase II HapMap genetic map descriptor defined in the module
(class `HapmapII_GRCh37`), whose registration name is the class name. -/
def HapmapII_GRCh37 : GeneticMap :=
  { name := "HapmapII_GRCh37"
    url := "http://ftp-trace.ncbi.nih.gov/1000genomes/ftp/technical/working/" ++
      "20110106_recombination_hotspots/" ++
      "HapmapII_GRCh37_RecombinationHotspots.tar.gz"
    file_pattern := "genetic_map_GRCh37_\x7bname\x7d.txt" }

/-- Modelled from the spec: `register_genetic_map` adds a descriptor to a
process-wide mapping from map name to descriptor, silently overwriting any
previous entry with the same name. -/
def register_genetic_map (m : GeneticMap) (registry : List (String × GeneticMap)) :
    List (String × GeneticMap) :=
  (m.name, m) :: registry.filter (fun p => p.1 ≠ m.name)

/-- The state of the process-wide genetic-map registry after importing the
module: empty before import, then the single `register_genetic_map` call. -/
def registry_after_import : List (String × GeneticMap) :=
  register_genetic_map HapmapII_GRCh37 []

/-! ## Genome definition -/

/-- The embedded chromosome table `_chromosome_data` (name and length per
row), verbatim from the source, including the trailing newline. -/
def _chromosome_data : String :=
"chr1   248956422
chr2   242193529
chr3   198295559
chr4   190214555
chr5   181538259
chr6   170805979
chr7   159345973
chr8   145138636
chr9   138394717
chr10  133797422
chr11  135086622
chr12  133275309
chr13  114364328
chr14  107043718
chr15  101991189
chr16  90338345
chr17  83257441
chr18  80373285
chr19  58617616
chr20  64444167
chr21  46709983
chr22  50818468
chrX   156040895
chrY   57227415
"

/-- Split a character list at every separator character, keeping the
(possibly empty) fragments between separators; `acc` holds the current
fragment reversed. -/
def splitListAux (p : Char → Bool) : List Char → List Char → List (List Char)
  | [], acc => [acc.reverse]
  | c :: cs, acc =>
    if p c then acc.reverse :: splitListAux p cs []
    else splitListAux p cs (c :: acc)

/-- Split a character list at every character satisfying `p`. -/
def splitList (p : Char → Bool) (cs : List Char) : List (List Char) :=
  splitListAux p cs []

/-- Python `str.splitlines` on newline-separated data: split at each
newline, dropping the empty fragment a trailing newline would produce. -/
def pySplitlines (s : String) : List String :=
  let l := (splitList (fun c => c = '\n') s.data).map String.mk
  if l.getLast? = some "" then l.dropLast else l

/-- Python `str.split()` with no argument: split on whitespace characters,
discarding empty fields (so runs of whitespace act as one separator and
leading/trailing whitespace is ignored). -/
def pySplit (s : String) : List String :=
  ((splitList Char.isWhitespace s.data).filter (fun t => t ≠ [])).map String.mk

/-- Python `int` on a string of decimal digits: `none` on the empty string
or any non-digit character, otherwise the denoted natural number. -/
def pyIntAux : List Char → ℕ → Option ℕ
  | [], acc => some acc
  | c :: cs, acc =>
    if c.isDigit then pyIntAux cs (10 * acc + (c.toNat - 48)) else none

/-- Python `int` applied to a field of the chromosome table. -/
def pyInt? (s : String) : Option ℕ :=
  match s.data with
  | [] => none
  | cs => pyIntAux cs 0

/-- A chromosome record as constructed by `genomes.Chromosome(...)`:
name, length in base pairs, and mean mutation/recombination rates. -/
structure Chromosome where
  name : String
  length : ℕ
  mean_mutation_rate : ℚ
  mean_recombination_rate : ℚ
deriving DecidableEq, Repr

/-- The module-level loop over `_chromosome_data.splitlines()`: each line's
first two whitespace-separated fields become the name and integer length,
and both rates are set to the placeholder `1e-8`. -/
def _chromosomes : List Chromosome :=
  (pySplitlines _chromosome_data).map (fun line =>
    let fields := pySplit line
    { name := fields.getD 0 ""
      length := (pyInt? (fields.getD 1 "")).getD 0
      mean_mutation_rate := 1 / 10 ^ 8
      mean_recombination_rate := 1 / 10 ^ 8 })

/-- The genome descriptor built by `genomes.Genome(...)`. -/
structure Genome where
  species : String
  chromosomes : List Chromosome
  default_genetic_map : String
deriving DecidableEq, Repr

/-- The module-level `genome` value for humans. -/
def genome : Genome :=
  { species := "homo_sapiens"
    chromosomes := _chromosomes
    default_genetic_map := HapmapII_GRCh37.name }

/-! ## Demographic models

The models are pure constructor-time computations producing population
configurations, a migration matrix and demographic events for the
consuming simulator (`msprime`).  Sizes, rates and times are real numbers;
`math.exp` is embedded as `Real.exp`. -/

/-- A population configuration as constructed by
`msprime.PopulationConfiguration`; the growth rate defaults to `0` when
not passed, as in `msprime`. -/
structure PopulationConfiguration where
  initial_size : ℝ
  growth_rate : ℝ := 0

/-- A demographic event as constructed by the `msprime` event classes used
in the module: mass migration, migration-rate change (optionally for a
single matrix entry), or population-parameter change (optionally setting
a new size and/or growth rate). -/
inductive DemographicEvent where
  | massMigration (time : ℝ) (source : ℕ) (destination : ℕ) (proportion : ℝ)
  | migrationRateChange (time : ℝ) (rate : ℝ) (matrix_index : Option (ℕ × ℕ))
  | populationParametersChange (time : ℝ) (initial_size : Option ℝ)
      (growth_rate : Option ℝ) (population_id : ℕ)

/-- The absolute time (in generations) an event is tagged with. -/
def DemographicEvent.time : DemographicEvent → ℝ
  | .massMigration t _ _ _ => t
  | .migrationRateChange t _ _ => t
  | .populationParametersChange t _ _ _ => t

/-- The data a demographic model constructor assembles: ordered population
configurations, a migration matrix (empty when the model does not set
one), and an ordered list of demographic events. -/
structure Model where
  population_configurations : List PopulationConfiguration
  migration_matrix : List (List ℝ) := []
  demographic_events : List DemographicEvent

/-- The body of `GutenkunstThreePopOutOfAfrica.__init__`, as a pure
function of no inputs: the three-population Out-of-Africa model from
Gutenkunst et al., with the maximum-likelihood parameters of Table 1.
Population indexes are 0=YRI, 1=CEU, 2=CHB. -/
noncomputable def gutenkunstConstruct (_ : Unit) : Model :=
  let N_A : ℝ := 7300
  let N_B : ℝ := 2100
  let N_AF : ℝ := 12300
  let N_EU0 : ℝ := 1000
  let N_AS0 : ℝ := 510
  let generation_time : ℝ := 25
  let T_AF : ℝ := 220e3 / generation_time
  let T_B : ℝ := 140e3 / generation_time
  let T_EU_AS : ℝ := 21.2e3 / generation_time
  let r_EU : ℝ := 0.004
  let r_AS : ℝ := 0.0055
  let N_EU : ℝ := N_EU0 / Real.exp (-r_EU * T_EU_AS)
  let N_AS : ℝ := N_AS0 / Real.exp (-r_AS * T_EU_AS)
  let m_AF_B : ℝ := 25e-5
  let m_AF_EU : ℝ := 3e-5
  let m_AF_AS : ℝ := 1.9e-5
  let m_EU_AS : ℝ := 9.6e-5
  { population_configurations := [
      { initial_size := N_AF },
      { initial_size := N_EU, growth_rate := r_EU },
      { initial_size := N_AS, growth_rate := r_AS }]
    migration_matrix := [
      [0, m_AF_EU, m_AF_AS],
      [m_AF_EU, 0, m_EU_AS],
      [m_AF_AS, m_EU_AS, 0]]
    demographic_events := [
      .massMigration T_EU_AS 2 1 1.0,
      .migrationRateChange T_EU_AS 0 none,
      .migrationRateChange T_EU_AS m_AF_B (some (0, 1)),
      .migrationRateChange T_EU_AS m_AF_B (some (1, 0)),
      .populationParametersChange T_EU_AS (some N_B) (some 0) 1,
      .massMigration T_B 1 0 1.0,
      .populationParametersChange T_AF (some N_A) none 0] }

/-- The model value a `GutenkunstThreePopOutOfAfrica()` construction
produces. -/
noncomputable def GutenkunstThreePopOutOfAfrica : Model :=
  gutenkunstConstruct ()

/-- The body of `TennessenEuropean.__init__`, as a pure function of no
inputs: the single-population European model derived from the Tennessen
et al. analysis. -/
noncomputable def tennessenConstruct (_ : Unit) : Model :=
  let N_A : ℝ := 7310
  let N_AF : ℝ := 14474
  let N_B : ℝ := 1861
  let N_EU1 : ℝ := 9475
  let generation_time : ℝ := 25
  let T_AF : ℝ := 148000 / generation_time
  let T_B : ℝ := 51000 / generation_time
  let T_EU0 : ℝ := 23000 / generation_time
  let T_EU1 : ℝ := 5115 / generation_time
  let r_EU0 : ℝ := 0.00307
  let r_EU1 : ℝ := 0.0195
  let N_EU : ℝ := N_EU1 / Real.exp (-r_EU1 * T_EU1)
  { population_configurations := [
      { initial_size := N_EU, growth_rate := r_EU1 }]
    demographic_events := [
      .populationParametersChange T_EU1 (some N_EU1) (some r_EU0) 0,
      .populationParametersChange T_EU0 (some N_B) (some 0) 0,
      .populationParametersChange T_B (some N_AF) (some 0) 0,
      .populationParametersChange T_AF (some N_A) (some 0) 0] }

/-- The model value a `TennessenEuropean()` construction produces. -/
noncomputable def TennessenEuropean : Model :=
  tennessenConstruct ()

/-! ## Claim theorems -/

/-- C1: In the `GutenkunstThreePopOutOfAfrica` constructor, with
`r_EU = 0.004`, `N_EU0 = 1000` and `T_EU_AS = 21200/25 = 848` generations,
the `initial_size` of the second (European) population configuration
equals `1000 / exp (-0.004 * 848)`: the epoch-start size is back-calculated
from the present-day size as `size_end / exp (-rate * duration)`. -/
theorem gutenkunst_EU_initial_size_backcalculated :
    (GutenkunstThreePopOutOfAfrica.population_configurations.map
      (fun c => c.initial_size)).getD 1 0 = 1000 / Real.exp (-0.004 * 848) := by
  simp [GutenkunstThreePopOutOfAfrica, gutenkunstConstruct]
  norm_num

/-- C2: The `TennessenEuropean` constructor produces exactly 1 population
configuration and exactly 4 demographic events, whose times in list order
are `5115/25 = 204.6`, `23000/25 = 920`, `51000/25 = 2040` and
`148000/25 = 5920` generations, strictly increasing. -/
theorem tennessen_configs_and_event_times :
    TennessenEuropean.population_configurations.length = 1 ∧
    TennessenEuropean.demographic_events.length = 4 ∧
    TennessenEuropean.demographic_events.map DemographicEvent.time =
      [204.6, 920, 2040, 5920] ∧
    List.Chain' (fun a b => a < b)
      (TennessenEuropean.demographic_events.map DemographicEvent.time) := by
  refine ⟨?_, ?_, ?_, ?_⟩ <;>
    simp [TennessenEuropean, tennessenConstruct, DemographicEvent.time] <;>
    norm_num

/-- C3: The `GutenkunstThreePopOutOfAfrica` constructor produces exactly 3
population configurations and a 3x3 migration matrix whose diagonal
entries are all zero. -/
theorem gutenkunst_three_pops_migration_matrix_shape :
    GutenkunstThreePopOutOfAfrica.population_configurations.length = 3 ∧
    GutenkunstThreePopOutOfAfrica.migration_matrix.length = 3 ∧
    GutenkunstThreePopOutOfAfrica.migration_matrix.map List.length = [3, 3, 3] ∧
    (GutenkunstThreePopOutOfAfrica.migration_matrix.getD 0 []).getD 0 1 = 0 ∧
    (GutenkunstThreePopOutOfAfrica.migration_matrix.getD 1 []).getD 1 1 = 0 ∧
    (GutenkunstThreePopOutOfAfrica.migration_matrix.getD 2 []).getD 2 1 = 0 := by
  refine ⟨?_, ?_, ?_, ?_, ?_, ?_⟩ <;>
    simp [GutenkunstThreePopOutOfAfrica, gutenkunstConstruct]

/-- C4: Parsing the embedded chromosome table yields exactly 24 chromosome
records, each record's name and integer length equalling the name/length
pair of the corresponding source-text row, in table order (in particular
`chr1` has length 248956422). -/
theorem chromosome_table_parsed_exactly :
    _chromosomes.length = 24 ∧
    _chromosomes.map (fun c => (c.name, c.length)) =
      [("chr1", 248956422), ("chr2", 242193529), ("chr3", 198295559),
       ("chr4", 190214555), ("chr5", 181538259), ("chr6", 170805979),
       ("chr7", 159345973), ("chr8", 145138636), ("chr9", 138394717),
       ("chr10", 133797422), ("chr11", 135086622), ("chr12", 133275309),
       ("chr13", 114364328), ("chr14", 107043718), ("chr15", 101991189),
       ("chr16", 90338345), ("chr17", 83257441), ("chr18", 80373285),
       ("chr19", 58617616), ("chr20", 64444167), ("chr21", 46709983),
       ("chr22", 50818468), ("chrX", 156040895), ("chrY", 57227415)] := by
  refine ⟨by decide, by decide⟩

/-- C5: Every one of the 24 chromosome records built from the table gets
the same uniform placeholder rates: `mean_mutation_rate = 1e-8` and
`mean_recombination_rate = 1e-8`. -/
theorem chromosome_rates_uniform_placeholder :
    _chromosomes.map
      (fun c => (c.mean_mutation_rate, c.mean_recombination_rate)) =
      List.replicate 24 (1 / 10 ^ 8, 1 / 10 ^ 8) :=
  rfl

/-- C6: For both demographic models, the constructed `demographic_events`
list is sorted in non-decreasing time order; in the Out-of-Africa model
the first five events share time `T_EU_AS = 848`, followed by `T_B = 5600`
and `T_AF = 8800`. -/
theorem demographic_events_time_sorted :
    GutenkunstThreePopOutOfAfrica.demographic_events.map DemographicEvent.time =
      [848, 848, 848, 848, 848, 5600, 8800] ∧
    List.Chain' (fun a b => a ≤ b)
      (GutenkunstThreePopOutOfAfrica.demographic_events.map DemographicEvent.time) ∧
    List.Chain' (fun a b => a ≤ b)
      (TennessenEuropean.demographic_events.map DemographicEvent.time) := by
  refine ⟨?_, ?_, ?_⟩ <;>
    simp [GutenkunstThreePopOutOfAfrica, gutenkunstConstruct,
      TennessenEuropean, tennessenConstruct, DemographicEvent.time] <;>
    norm_num

/-- C7: After module import, the genome descriptor's `default_genetic_map`
equals the name of the registered `HapmapII_GRCh37` genetic map, and that
name is present as a key in the process-wide genetic-map registry. -/
theorem default_genetic_map_registered :
    genome.default_genetic_map = HapmapII_GRCh37.name ∧
    (registry_after_import.map Prod.fst).contains genome.default_genetic_map = true := by
  refine ⟨rfl, by decide⟩

/-- C8: Model construction is deterministic: constructing each model twice
yields identical population configurations, migration matrix and
demographic events, with no dependence on hidden state. -/
theorem model_construction_deterministic :
    ∀ u v : Unit,
      (gutenkunstConstruct u).population_configurations =
        (gutenkunstConstruct v).population_configurations ∧
      (gutenkunstConstruct u).migration_matrix =
        (gutenkunstConstruct v).migration_matrix ∧
      (gutenkunstConstruct u).demographic_events =
        (gutenkunstConstruct v).demographic_events ∧
      (tennessenConstruct u).population_configurations =
        (tennessenConstruct v).population_configurations ∧
      (tennessenConstruct u).demographic_events =
        (tennessenConstruct v).demographic_events := by
  intro u v
  cases u
  cases v
  exact ⟨rfl, rfl, rfl, rfl, rfl⟩

/-- C9: The 3x3 migration matrix of `GutenkunstThreePopOutOfAfrica` is
symmetric: for all population indexes `i, j`, entry `(i, j)` equals entry
`(j, i)` (the off-diagonal rates `m_AF_EU = 3e-5`, `m_AF_AS = 1.9e-5` and
`m_EU_AS = 9.6e-5` appear in mirrored positions). -/
theorem gutenkunst_migration_matrix_symmetric :
    ∀ i j : Fin 3,
      (GutenkunstThreePopOutOfAfrica.migration_matrix.getD i []).getD j 0 =
      (GutenkunstThreePopOutOfAfrica.migration_matrix.getD j []).getD i 0 := by
  intro i j
  fin_cases i <;> fin_cases j <;>
    simp [GutenkunstThreePopOutOfAfrica, gutenkunstConstruct]

/-- C10: The names of the chromosomes in the genome descriptor are
pairwise distinct: no two of the 24 records built from the embedded table
share a name. -/
theorem chromosome_names_distinct :
    (genome.chromosomes.map (fun c => c.name)).Nodup := by
  decide

end Stdpopsim
